import Mathlib

/-!
Shallow embedding of the `linkshoter` URL-shortening service (`src/app.py`)
over explicit store states, with theorems settling the specification claims.

The SQLite database is modelled as lists of rows.  SQLite never runs here:
the SQL statements the app issues are embedded as pure list operations, and
SQLite's BINARY text collation (`memcmp` on the UTF-8 bytes) is embedded as
a lexicographic comparison on the character list (all texts compared by this
program are ASCII, where byte order and code-point order agree).
-/

/-- A row of the `links` table (`init_db`, app.py lines 19–27).
`expiry_date` is `none` for SQL NULL; the creation form always binds a
string (possibly `""`), never NULL.  Surrogate `id`s are modelled as
`rowCount + 1` at insertion time; no claim depends on their values. -/
structure Link where
  id : Nat
  original_url : String
  short_code : String
  expiry_date : Option String
  created_at : String
deriving DecidableEq, Repr

/-- A row of the `clicks` table (`init_db`, app.py lines 29–38). -/
structure Click where
  id : Nat
  short_code : String
  clicked_at : String
  ip_address : String
  user_agent : String
deriving DecidableEq, Repr

/-- The persistent store: the two tables of `database.db`, in rowid order. -/
structure DB where
  links : List Link
  clicks : List Click
deriving DecidableEq, Repr

/-- SQLite BINARY collation on text: strict lexicographic (memcmp) order on
the character lists.  A strict prefix is smaller; `[]` is below every
non-empty list. -/
def memcmpLt : List Char → List Char → Bool
  | _, [] => false
  | [], _ :: _ => true
  | a :: as, b :: bs =>
    if a < b then true
    else if b < a then false
    else memcmpLt as bs

/-- `a < b` for two TEXT values under SQLite's default BINARY collation. -/
def sqliteTextLt (a b : String) : Bool :=
  memcmpLt a.data b.data

/-- `delete_expired_links` (app.py lines 44–48):
`DELETE FROM links WHERE expiry_date < datetime("now")`.
A row survives unless its `expiry_date` compares strictly below the
`datetime("now")` text; a NULL `expiry_date` makes the WHERE clause NULL,
so the row is kept.  `now` is the TEXT that `datetime("now")` produced
(format `YYYY-MM-DD HH:MM:SS`). -/
def delete_expired_links (links : List Link) (now : String) : List Link :=
  links.filter fun l =>
    match l.expiry_date with
    | none => true
    | some e => ! sqliteTextLt e now

/-- A Python `datetime.datetime` value.  Python compares two datetimes
lexicographically on (year, month, day, hour, minute, second, microsecond). -/
structure PyDateTime where
  year : Nat
  month : Nat
  day : Nat
  hour : Nat
  minute : Nat
  second : Nat
  microsecond : Nat
deriving DecidableEq, Repr

/-- Python's `<` on `datetime` values: lexicographic on the fields. -/
def PyDateTime.ltb (a b : PyDateTime) : Bool :=
  if a.year < b.year then true else if b.year < a.year then false
  else if a.month < b.month then true else if b.month < a.month then false
  else if a.day < b.day then true else if b.day < a.day then false
  else if a.hour < b.hour then true else if b.hour < a.hour then false
  else if a.minute < b.minute then true else if b.minute < a.minute then false
  else if a.second < b.second then true else if b.second < a.second then false
  else if a.microsecond < b.microsecond then true else false

/-- Gregorian leap year, as Python's `calendar`/`datetime` define it. -/
def isLeapYear (y : Nat) : Bool :=
  (y % 4 == 0 && y % 100 != 0) || y % 400 == 0

/-- Number of days of month `m` of year `y`. -/
def daysInMonth (y m : Nat) : Nat :=
  if m == 2 then (if isLeapYear y then 29 else 28)
  else if m == 4 || m == 6 || m == 9 || m == 11 then 30
  else 31

/-- Numeric value of a decimal digit character. -/
def digitVal (c : Char) : Nat := c.toNat - '0'.toNat

/-- `datetime.strptime(s, '%Y-%m-%dT%H:%M')` (app.py line 152), on the
zero-padded `datetime-local` strings the creation form produces:
`YYYY-MM-DDTHH:MM` with field range checks (Python raises `ValueError`,
here `none`, when the text does not match or a field is out of range;
the year is checked against Python's `MINYEAR = 1` and the day against
the month's length, as Python does). -/
def strptime_YmdTHM (s : String) : Option PyDateTime :=
  match s.data with
  | [y1, y2, y3, y4, s1, m1, m2, s2, d1, d2, s3, h1, h2, s4, n1, n2] =>
    if y1.isDigit && y2.isDigit && y3.isDigit && y4.isDigit &&
       m1.isDigit && m2.isDigit && d1.isDigit && d2.isDigit &&
       h1.isDigit && h2.isDigit && n1.isDigit && n2.isDigit &&
       s1 == '-' && s2 == '-' && s3 == 'T' && s4 == ':' then
      let y := ((digitVal y1 * 10 + digitVal y2) * 10 + digitVal y3) * 10 + digitVal y4
      let mo := digitVal m1 * 10 + digitVal m2
      let d := digitVal d1 * 10 + digitVal d2
      let h := digitVal h1 * 10 + digitVal h2
      let mi := digitVal n1 * 10 + digitVal n2
      if 1 ≤ y && 1 ≤ mo && mo ≤ 12 && 1 ≤ d && d ≤ daysInMonth y mo && h ≤ 23 && mi ≤ 59 then
        some ⟨y, mo, d, h, mi, 0, 0⟩
      else none
    else none
  | _ => none

/-- The redirect-time expiry evaluation (app.py line 152):
`if expiry_date and datetime.now() > datetime.strptime(expiry_date, '%Y-%m-%dT%H:%M')`.
A NULL (`none`) or empty-string `expiry_date` is falsy, so no parse happens
and the link counts as not expired.  Otherwise the text is parsed; a parse
failure is Python's `ValueError`, modelled as `Except.error ()`. -/
def is_expired (expiry : Option String) (now : PyDateTime) : Except Unit Bool :=
  match expiry with
  | none => .ok false
  | some s =>
    if s = "" then .ok false
    else
      match strptime_YmdTHM s with
      | none => .error ()
      | some d => .ok (PyDateTime.ltb d now)

/-- The outcome the redirect handler sends to the client. -/
inductive RedirectOutcome where
  /-- `error.html` with HTTP 404, message "URL not found". -/
  | notFound
  /-- `error.html` with HTTP 410, message "This URL has expired". -/
  | expired
  /-- HTTP redirect to the stored original URL. -/
  | redirected (url : String)
deriving DecidableEq, Repr

/-- The `INSERT INTO clicks ...` of the redirect handler (app.py lines
137–140).  SQLite does not enforce the `FOREIGN KEY` to `links` (foreign
keys are off by default and the app never enables them), so the insert
succeeds whether or not a matching link exists. -/
def record_click (db : DB) (code ip ua clickedAt : String) : DB :=
  { db with
    clicks := db.clicks ++
      [{ id := db.clicks.length + 1, short_code := code,
         clicked_at := clickedAt, ip_address := ip, user_agent := ua }] }

/-- `redirect_to_original` (app.py lines 132–157): insert a click row,
look the code up, commit, then decide the response.  The commit precedes
the expiry check, so the click stays recorded even when `strptime` raises
(`Except.error`, which Flask turns into HTTP 500).  `clickedAt` is the
`CURRENT_TIMESTAMP` default of the insert; `now` is `datetime.now()`. -/
def redirect_to_original (db : DB) (code ip ua clickedAt : String)
    (now : PyDateTime) : DB × Except Unit RedirectOutcome :=
  (record_click db code ip ua clickedAt,
   match db.links.find? (fun l => l.short_code == code) with
   | none => .ok .notFound
   | some l =>
     match is_expired l.expiry_date now with
     | .error e => .error e
     | .ok true => .ok .expired
     | .ok false => .ok (.redirected l.original_url))

/-- The POST branch of `index` (app.py lines 112–128): generate a code,
`INSERT INTO links (original_url, short_code, expiry_date) VALUES (?,?,?)`,
and answer with `request.host_url + short_code`.  The form always binds
`expiry_date` to a string (possibly `""`), never to NULL.  The UNIQUE
constraint on `short_code` (app.py line 23) makes the insert raise
`sqlite3.IntegrityError` when the code already exists; the handler has no
try/except, so the error propagates (`Except.error ()`, an HTTP 500) and
the `with sqlite3.connect` block rolls the transaction back, leaving the
store unchanged.  `code` stands for the value `generate_short_code()`
returned, `createdAt` for the `CURRENT_TIMESTAMP` default. -/
def index_post (db : DB) (url expiry code createdAt host : String) :
    DB × Except Unit String :=
  if db.links.any (fun l => l.short_code == code) then
    (db, .error ())
  else
    ({ db with
       links := db.links ++
         [{ id := db.links.length + 1, original_url := url, short_code := code,
            expiry_date := some expiry, created_at := createdAt }] },
     .ok (host ++ code))

/-- `COUNT(c.id)` of the `LEFT JOIN` in `all_links` (app.py lines 164–170):
the number of click rows whose `short_code` equals `code` (the `LEFT JOIN`
makes this 0, not NULL-drop, when no click matches). -/
def click_count (clicks : List Click) (code : String) : Nat :=
  (clicks.filter fun c => c.short_code == code).length

/-- The `ORDER BY l.created_at DESC` order of `all_links`: `a` may precede
`b` when `a.created_at` is not below `b.created_at` in SQLite text order. -/
def created_desc (a b : Link) : Prop :=
  sqliteTextLt a.created_at b.created_at = false

instance : DecidableRel created_desc := fun a b =>
  inferInstanceAs (Decidable (sqliteTextLt a.created_at b.created_at = false))

/-- `string.ascii_letters` of Python's `string` module. -/
def ascii_letters : String :=
  "abcdefghijklmnopqrstuvwxyzABCDEFGHIJKLMNOPQRSTUVWXYZ"

/-- `string.digits` of Python's `string` module. -/
def string_digits : String := "0123456789"

/-- `characters = string.ascii_letters + string.digits`
(`generate_short_code`, app.py line 98). -/
def characters : String := ascii_letters ++ string_digits

theorem characters_data_length : characters.data.length = 62 := by decide

/-- `generate_short_code` (app.py lines 97–99):
`''.join(random.choice(characters) for _ in range(6))`.
`random.choice(characters)` draws an index uniformly over
`range(len(characters))`; `pick i` is the index the i-th iteration drew,
so the randomness is the function `pick` and the code is its image. -/
def generate_short_code (pick : Fin 6 → Fin 62) : String :=
  ⟨(List.finRange 6).map fun i =>
    characters.data.get ((pick i).cast characters_data_length.symm)⟩

/-- `all_links` (app.py lines 159–172): one row per link (`GROUP BY l.id`),
each with its click count, sorted by `created_at` descending.  SQLite
guarantees only sortedness, so the embedding fixes one sorted permutation
(insertion sort). -/
def all_links (db : DB) : List (Link × Nat) :=
  (List.insertionSort created_desc db.links).map fun l =>
    (l, click_count db.clicks l.short_code)

/-- The lifecycle steps of the process. -/
inductive StartupEvent where
  /-- `scheduler.start()`, app.py line 52, run at module import. -/
  | schedulerStart
  /-- `init_db()`, app.py line 200. -/
  | initDb
  /-- `app.run(debug=True)`, app.py line 202. -/
  | appRun
  /-- `scheduler.shutdown()`, app.py line 204 (the `finally` block). -/
  | schedulerShutdown
deriving DecidableEq, BEq, Repr

/-- The order in which the module body and the `__main__` block execute the
lifecycle steps: the module body creates and starts the scheduler (lines
50–52) when the file is imported, so `scheduler.start()` precedes the
`init_db()` call of the `__main__` block (line 200), which precedes
`app.run` (line 202) and, via `finally`, `scheduler.shutdown()` (line 204). -/
def main_startup_trace : List StartupEvent :=
  [.schedulerStart, .initDb, .appRun, .schedulerShutdown]

/-- `add_job(..., trigger='interval', hours=1)` (app.py line 51): the sweep
interval in seconds. -/
def sweep_interval : Nat := 3600

/-- Time (seconds) of the k-th sweep after `scheduler.start()` at `startT`:
APScheduler's interval trigger first fires one interval after start and
then every interval. -/
def sweep_time (startT k : Nat) : Nat := startT + (k + 1) * sweep_interval

/-- Whether a sweep fires at time `t` for a scheduler started at `startT`
and shut down at `shutdownT`: sweeps fire at whole intervals after start,
and `scheduler.shutdown()` (wait=True) lets no run begin afterwards. -/
def sweep_runs_at (startT shutdownT t : Nat) : Bool :=
  decide (startT < t) && decide (t ≤ shutdownT) &&
    ((t - startT) % sweep_interval == 0)

/-! ### Properties of the SQLite BINARY text order -/

theorem memcmpLt_irrefl : ∀ l : List Char, memcmpLt l l = false
  | [] => rfl
  | a :: as => by simp [memcmpLt, lt_irrefl, memcmpLt_irrefl as]

theorem memcmpLt_asymm : ∀ (a b : List Char),
    memcmpLt a b = true → memcmpLt b a = false
  | _, [], h => by simp [memcmpLt] at h
  | [], _ :: _, _ => rfl
  | a :: as, b :: bs, h => by
    rcases lt_trichotomy a b with hlt | heq | hgt
    · simp [memcmpLt, hlt, lt_asymm hlt]
    · subst heq
      simp only [memcmpLt, if_neg (lt_irrefl a)] at h ⊢
      exact memcmpLt_asymm as bs h
    · simp [memcmpLt, hgt, lt_asymm hgt] at h

theorem memcmpLt_trans : ∀ (a b c : List Char),
    memcmpLt a b = true → memcmpLt b c = true → memcmpLt a c = true
  | _, [], _, h1, _ => by simp [memcmpLt] at h1
  | _, _ :: _, [], _, h2 => by simp [memcmpLt] at h2
  | [], _ :: _, _ :: _, _, _ => rfl
  | a :: as, b :: bs, c :: cs, h1, h2 => by
    rcases lt_trichotomy a b with hab | hab | hab
    · rcases lt_trichotomy b c with hbc | hbc | hbc
      · simp [memcmpLt, lt_trans hab hbc]
      · subst hbc; simp [memcmpLt, hab]
      · simp [memcmpLt, hbc, lt_asymm hbc] at h2
    · subst hab
      rcases lt_trichotomy a c with hac | hac | hac
      · simp [memcmpLt, hac]
      · subst hac
        simp only [memcmpLt, if_neg (lt_irrefl a)] at h1 h2 ⊢
        exact memcmpLt_trans as bs cs h1 h2
      · simp [memcmpLt, hac, lt_asymm hac] at h2
    · simp [memcmpLt, hab, lt_asymm hab] at h1

theorem memcmpLt_connex : ∀ (a b : List Char),
    memcmpLt a b = false → memcmpLt b a = false → a = b
  | [], [], _, _ => rfl
  | [], _ :: _, h1, _ => by simp [memcmpLt] at h1
  | _ :: _, [], _, h2 => by simp [memcmpLt] at h2
  | a :: as, b :: bs, h1, h2 => by
    rcases lt_trichotomy a b with hlt | heq | hgt
    · simp [memcmpLt, hlt] at h1
    · subst heq
      simp only [memcmpLt, if_neg (lt_irrefl a)] at h1 h2
      rw [memcmpLt_connex as bs h1 h2]
    · simp [memcmpLt, hgt] at h2

theorem memcmpLt_not_trans (x y z : List Char) (hxy : memcmpLt x y = false)
    (hyz : memcmpLt y z = false) : memcmpLt x z = false := by
  cases hxz : memcmpLt x z with
  | false => rfl
  | true =>
    cases hyx : memcmpLt y x with
    | true =>
      have h := memcmpLt_trans y x z hyx hxz
      rw [h] at hyz
      exact Bool.noConfusion hyz
    | false =>
      have hxyeq := memcmpLt_connex x y hxy hyx
      subst hxyeq
      rw [hxz] at hyz
      exact Bool.noConfusion hyz

/-- With equal-length prefixes and a separator pair ordered `b < a`, the
memcmp comparison never reaches the suffixes: it is decided by the
prefixes alone. -/
theorem memcmpLt_append : ∀ (d1 d2 : List Char) (a b : Char) (x y : List Char),
    d1.length = d2.length → b < a →
    memcmpLt (d1 ++ a :: x) (d2 ++ b :: y) = memcmpLt d1 d2
  | [], [], a, b, x, y, _, hba => by
    simp [memcmpLt, hba, lt_asymm hba]
  | [], _ :: _, _, _, _, _, hlen, _ => by simp at hlen
  | _ :: _, [], _, _, _, _, hlen, _ => by simp at hlen
  | c1 :: cs1, c2 :: cs2, a, b, x, y, hlen, hba => by
    simp only [List.length_cons] at hlen
    rcases lt_trichotomy c1 c2 with h | h | h
    · simp [memcmpLt, h]
    · subst h
      simp only [List.cons_append, memcmpLt, if_neg (lt_irrefl c1)]
      exact memcmpLt_append cs1 cs2 a b x y (by omega) hba
    · simp [memcmpLt, h, lt_asymm h]

instance : IsTotal Link created_desc :=
  ⟨fun a b => by
    cases h : sqliteTextLt a.created_at b.created_at with
    | false => exact Or.inl h
    | true => exact Or.inr (memcmpLt_asymm _ _ h)⟩

instance : IsTrans Link created_desc :=
  ⟨fun _ _ _ hab hbc => memcmpLt_not_trans _ _ _ hab hbc⟩

/-! ### Concrete states used by the witnesses -/

/-- A link whose expiry has long passed. -/
def exLinkExpired : Link :=
  { id := 1, original_url := "https://a.example/", short_code := "aaaaaa",
    expiry_date := some "2020-01-01T00:00", created_at := "2019-01-01 00:00:00" }

/-- A link with NULL expiry. -/
def exLinkNever : Link :=
  { id := 2, original_url := "https://b.example/", short_code := "bbbbbb",
    expiry_date := none, created_at := "2019-01-02 00:00:00" }

/-- A link created with the expiry form field left blank: the handler bound
`""`, not NULL. -/
def exLinkBlank : Link :=
  { id := 3, original_url := "https://c.example/", short_code := "cccccc",
    expiry_date := some "", created_at := "2019-01-03 00:00:00" }

/-- A store holding the three example links. -/
def exDB : DB :=
  { links := [exLinkExpired, exLinkNever, exLinkBlank],
    clicks := [{ id := 1, short_code := "aaaaaa",
                 clicked_at := "2019-06-01 00:00:00",
                 ip_address := "127.0.0.1", user_agent := "ua" }] }

/-- `datetime.now()` of the examples. -/
def exNow : PyDateTime := ⟨2026, 10, 12, 0, 0, 0, 0⟩

/-- `datetime("now")` TEXT of the examples. -/
def exNowText : String := "2026-10-12 00:00:00"

/-- A link whose expiry falls earlier on the sweep's own calendar day. -/
def exLinkSameDay : Link :=
  { id := 5, original_url := "https://e.example/", short_code := "eeeeee",
    expiry_date := some "2026-10-12T00:30", created_at := "2026-10-01 00:00:00" }

/-! ### Claims -/

/-- Filter semantics of the sweep as implemented: after
`delete_expired_links` runs against the `datetime("now")` text `now`,
every link whose `expiry_date` is non-NULL and below `now` in SQLite text
order is absent, every link whose `expiry_date` is NULL or not below `now`
is still present, and the surviving rows are a sublist of the original
table (no row is altered or reordered).  Note this is the byte order the
DELETE performs, not the chronological order the specification asks for;
the two disagree on same-date expiries (see
`sweep_keeps_chronologically_expired_link`). -/
theorem delete_expired_removes_exactly_expired (links : List Link) (now : String) :
    (∀ l ∈ links, (∃ e, l.expiry_date = some e ∧ sqliteTextLt e now = true) →
      l ∉ delete_expired_links links now) ∧
    (∀ l ∈ links,
      (l.expiry_date = none ∨
        ∃ e, l.expiry_date = some e ∧ sqliteTextLt e now = false) →
      l ∈ delete_expired_links links now) ∧
    List.Sublist (delete_expired_links links now) links := by
  refine ⟨?_, ?_, List.filter_sublist links⟩
  · rintro l _ ⟨e, he, hlt⟩ hmem
    simp [delete_expired_links, List.mem_filter, he, hlt] at hmem
  · rintro l hl (he | ⟨e, he, hlt⟩)
    · rw [delete_expired_links, List.mem_filter]
      refine ⟨hl, ?_⟩
      simp [he]
    · rw [delete_expired_links, List.mem_filter]
      refine ⟨hl, ?_⟩
      simp [he, hlt]

/-- At `exNowText`, the sweep removes the long-expired link and keeps the
NULL-expiry link. -/
theorem delete_expired_removes_exactly_expired_witness :
    exLinkExpired ∉ delete_expired_links [exLinkExpired, exLinkNever] exNowText ∧
    exLinkNever ∈ delete_expired_links [exLinkExpired, exLinkNever] exNowText :=
  ⟨(delete_expired_removes_exactly_expired [exLinkExpired, exLinkNever] exNowText).1
      exLinkExpired (by decide) ⟨"2020-01-01T00:00", rfl, by decide⟩,
   (delete_expired_removes_exactly_expired [exLinkExpired, exLinkNever] exNowText).2.1
      exLinkNever (by decide) (Or.inl rfl)⟩

/-- C3: the code evaluated at the failing input.  The stored expiry
`2026-10-12T00:30` is chronologically strictly before the sweep instant
`2026-10-12 23:59:59` — Python's datetime order says so, and the
redirect-time evaluation of the very same program answers "expired" for
it — yet `delete_expired_links` keeps the row, because the DELETE
compares the `T`-separated expiry text byte-wise against the
space-separated `datetime("now")` text and `'T' > ' '`.  The claim says
every link whose expiry is non-null and strictly before now is absent
after the sweep; the code leaves this one in the store until the next
calendar day. -/
theorem sweep_keeps_chronologically_expired_link :
    PyDateTime.ltb ⟨2026, 10, 12, 0, 30, 0, 0⟩ ⟨2026, 10, 12, 23, 59, 59, 0⟩ = true ∧
    is_expired exLinkSameDay.expiry_date ⟨2026, 10, 12, 23, 59, 59, 0⟩ = .ok true ∧
    exLinkSameDay ∈ delete_expired_links [exLinkSameDay] "2026-10-12 23:59:59" :=
  ⟨rfl, rfl, by decide⟩

/-- C4: every redirect request appends exactly one click row carrying the
requested code — also when no link with that code exists and when the link
is expired, since the insert precedes the lookup and SQLite does not
enforce the foreign key — and the count of click rows for that code grows
by exactly one. -/
theorem redirect_always_records_one_click (db : DB) (code ip ua t : String)
    (now : PyDateTime) :
    (redirect_to_original db code ip ua t now).1.clicks =
      db.clicks ++ [{ id := db.clicks.length + 1, short_code := code,
                      clicked_at := t, ip_address := ip, user_agent := ua }] ∧
    click_count (redirect_to_original db code ip ua t now).1.clicks code =
      click_count db.clicks code + 1 := by
  have hfst : (redirect_to_original db code ip ua t now).1 =
      record_click db code ip ua t := rfl
  rw [hfst]
  refine ⟨rfl, ?_⟩
  rw [record_click]
  simp [click_count, List.filter_append]

/-- C5: creating a link whose generated code already exists makes the
UNIQUE-constraint violation propagate to the caller and leaves the store
unchanged. -/
theorem duplicate_code_insert_fails (db : DB) (url expiry code createdAt host : String)
    (h : ∃ l ∈ db.links, l.short_code = code) :
    index_post db url expiry code createdAt host = (db, .error ()) := by
  have hany : db.links.any (fun l => l.short_code == code) = true := by
    rcases h with ⟨l, hl, he⟩
    exact List.any_eq_true.mpr ⟨l, hl, by simp [he]⟩
  rw [index_post, if_pos hany]

/-- C5 witness: re-creating code "aaaaaa" over `exDB` fails and keeps the
store as it was. -/
theorem duplicate_code_insert_fails_witness :
    index_post exDB "https://x.example/" "" "aaaaaa" "2026-01-01 00:00:00"
      "http://localhost:5000/" = (exDB, .error ()) :=
  duplicate_code_insert_fails exDB "https://x.example/" "" "aaaaaa"
    "2026-01-01 00:00:00" "http://localhost:5000/" ⟨exLinkExpired, by decide, rfl⟩

/-- C9: the sweep compares the stored `YYYY-MM-DDTHH:MM` text with the
`YYYY-MM-DD HH:MM:SS` text of `datetime("now")` byte-wise, and since
`'T' > ' '` the comparison is decided by the date parts alone: a link is
deleted exactly when its expiry date part is lexicographically before
now's date part, so a link expiring on today's date is never deleted, no
matter how far past its time of day is. -/
theorem sweep_separator_mismatch (l : Link) (links : List Link)
    (dE tE dN tN : String)
    (hmem : l ∈ links) (hexp : l.expiry_date = some (dE ++ "T" ++ tE))
    (hE : dE.length = 10) (hN : dN.length = 10) :
    (l ∈ delete_expired_links links (dN ++ " " ++ tN) ↔
      sqliteTextLt dE dN = false) ∧
    (dE = dN → l ∈ delete_expired_links links (dN ++ " " ++ tN)) := by
  have hlen : dE.data.length = dN.data.length := hE.trans hN.symm
  have hdE : (dE ++ "T" ++ tE).data = dE.data ++ 'T' :: tE.data := by
    simp [String.data_append]
  have hdN : (dN ++ " " ++ tN).data = dN.data ++ ' ' :: tN.data := by
    simp [String.data_append]
  have hkey : sqliteTextLt (dE ++ "T" ++ tE) (dN ++ " " ++ tN) =
      sqliteTextLt dE dN := by
    show memcmpLt _ _ = memcmpLt _ _
    rw [hdE, hdN]
    exact memcmpLt_append dE.data dN.data 'T' ' ' tE.data tN.data hlen (by decide)
  have hiff : l ∈ delete_expired_links links (dN ++ " " ++ tN) ↔
      sqliteTextLt dE dN = false := by
    simp [delete_expired_links, List.mem_filter, hexp, hkey, hmem]
  refine ⟨hiff, fun hde => hiff.mpr ?_⟩
  rw [hde]
  exact memcmpLt_irrefl dN.data

/-- C9 witness: a link that expired at 00:30 of 2026-10-12 survives a sweep
running at 23:59:59 of the same day. -/
theorem sweep_separator_mismatch_witness :
    { id := 4, original_url := "https://d.example/", short_code := "dddddd",
      expiry_date := some "2026-10-12T00:30",
      created_at := "2026-10-01 00:00:00" : Link } ∈
      delete_expired_links
        [{ id := 4, original_url := "https://d.example/", short_code := "dddddd",
           expiry_date := some "2026-10-12T00:30",
           created_at := "2026-10-01 00:00:00" : Link }]
        ("2026-10-12" ++ " " ++ "23:59:59") :=
  (sweep_separator_mismatch
    { id := 4, original_url := "https://d.example/", short_code := "dddddd",
      expiry_date := some "2026-10-12T00:30",
      created_at := "2026-10-01 00:00:00" }
    [{ id := 4, original_url := "https://d.example/", short_code := "dddddd",
       expiry_date := some "2026-10-12T00:30",
       created_at := "2026-10-01 00:00:00" }]
    "2026-10-12" "00:30" "2026-10-12" "23:59:59"
    (by decide) (by decide) (by decide) (by decide)).2 rfl

/-- C10: a link stored with the empty-string expiry (blank form field) is
redirected, never answered with 410; yet its `expiry_date` is not NULL, and
SQLite's text order puts `""` below every non-empty datetime text, so the
sweep deletes such a link at its next run. -/
theorem empty_string_expiry_behaviour (db : DB) (code ip ua t : String)
    (now : PyDateTime) (l : Link)
    (hfind : db.links.find? (fun l => l.short_code == code) = some l)
    (hexp : l.expiry_date = some "") :
    (redirect_to_original db code ip ua t now).2 = .ok (.redirected l.original_url) ∧
    (redirect_to_original db code ip ua t now).2 ≠ .ok .expired ∧
    l.expiry_date ≠ none ∧
    (∀ s : String, s.data ≠ [] → sqliteTextLt "" s = true) ∧
    (∀ links nowT, l ∈ links → nowT.data ≠ [] →
      l ∉ delete_expired_links links nowT) := by
  have hlt : ∀ s : String, s.data ≠ [] → sqliteTextLt "" s = true := by
    intro s hs
    show memcmpLt [] s.data = true
    cases hsd : s.data with
    | nil => exact absurd hsd hs
    | cons c cs => rfl
  have hresp : (redirect_to_original db code ip ua t now).2 =
      .ok (.redirected l.original_url) := by
    simp [redirect_to_original, hfind, is_expired, hexp]
  refine ⟨hresp, ?_, ?_, hlt, ?_⟩
  · rw [hresp]
    intro hcontra
    exact RedirectOutcome.noConfusion (Except.ok.inj hcontra)
  · rw [hexp]
    exact Option.noConfusion
  · intro links nowT hm hne hmem
    simp [delete_expired_links, List.mem_filter, hexp, hlt nowT hne] at hmem

/-- C10 witness: over `exDB`, code "cccccc" (blank expiry) redirects to its
original URL, and the sweep at `exNowText` removes that link. -/
theorem empty_string_expiry_behaviour_witness :
    (redirect_to_original exDB "cccccc" "127.0.0.1" "ua" "2026-10-12 00:00:00"
      exNow).2 = .ok (.redirected "https://c.example/") ∧
    sqliteTextLt "" exNowText = true ∧
    exLinkBlank ∉ delete_expired_links [exLinkBlank] exNowText :=
  ⟨(empty_string_expiry_behaviour exDB "cccccc" "127.0.0.1" "ua"
      "2026-10-12 00:00:00" exNow exLinkBlank (by decide) rfl).1,
   (empty_string_expiry_behaviour exDB "cccccc" "127.0.0.1" "ua"
      "2026-10-12 00:00:00" exNow exLinkBlank (by decide) rfl).2.2.2.1
      exNowText (by decide),
   (empty_string_expiry_behaviour exDB "cccccc" "127.0.0.1" "ua"
      "2026-10-12 00:00:00" exNow exLinkBlank (by decide) rfl).2.2.2.2
      [exLinkBlank] exNowText (by decide) (by decide)⟩

/-- C1: the redirect handler leaves the links table untouched in every
case, answers 404 when no link carries the code, redirects to the stored
`original_url` when the link is found and not expired, and answers 410 —
without deleting the row — when the link is found and expired. -/
theorem redirect_state_machine (db : DB) (code ip ua t : String) (now : PyDateTime) :
    (redirect_to_original db code ip ua t now).1.links = db.links ∧
    (db.links.find? (fun l => l.short_code == code) = none →
      (redirect_to_original db code ip ua t now).2 = .ok .notFound) ∧
    (∀ l, db.links.find? (fun l => l.short_code == code) = some l →
      (is_expired l.expiry_date now = .ok false →
        (redirect_to_original db code ip ua t now).2 =
          .ok (.redirected l.original_url)) ∧
      (is_expired l.expiry_date now = .ok true →
        (redirect_to_original db code ip ua t now).2 = .ok .expired)) := by
  refine ⟨rfl, ?_, ?_⟩
  · intro h
    simp [redirect_to_original, h]
  · intro l hfind
    constructor
    · intro hexp
      simp [redirect_to_original, hfind, hexp]
    · intro hexp
      simp [redirect_to_original, hfind, hexp]

/-- C1 witness: over `exDB`, an unknown code yields 404, the NULL-expiry
link redirects, the expired link yields 410, and the links table is
unchanged. -/
theorem redirect_state_machine_witness :
    (redirect_to_original exDB "zzzzzz" "ip" "ua" "t" exNow).2 = .ok .notFound ∧
    (redirect_to_original exDB "bbbbbb" "ip" "ua" "t" exNow).2 =
      .ok (.redirected "https://b.example/") ∧
    (redirect_to_original exDB "aaaaaa" "ip" "ua" "t" exNow).2 = .ok .expired ∧
    (redirect_to_original exDB "aaaaaa" "ip" "ua" "t" exNow).1.links = exDB.links :=
  ⟨(redirect_state_machine exDB "zzzzzz" "ip" "ua" "t" exNow).2.1 (by decide),
   ((redirect_state_machine exDB "bbbbbb" "ip" "ua" "t" exNow).2.2 exLinkNever
      (by decide)).1 rfl,
   ((redirect_state_machine exDB "aaaaaa" "ip" "ua" "t" exNow).2.2 exLinkExpired
      (by decide)).2 (by rfl),
   (redirect_state_machine exDB "aaaaaa" "ip" "ua" "t" exNow).1⟩

/-- C2: the redirect-time expiry evaluation answers "not expired" on a
NULL `expiry_date`, and on a parseable stored timestamp it answers
"expired" exactly when `datetime.now()` is strictly greater than it. -/
theorem expiry_evaluation (now : PyDateTime) :
    is_expired none now = .ok false ∧
    ∀ s d, strptime_YmdTHM s = some d →
      is_expired (some s) now = .ok (PyDateTime.ltb d now) := by
  refine ⟨rfl, ?_⟩
  intro s d h
  have hs : ¬ s = "" := by
    intro he
    have hnil : strptime_YmdTHM "" = none := rfl
    rw [he, hnil] at h
    exact Option.noConfusion h
  simp [is_expired, hs, h]

/-- C2 witness: at `exNow` (2026), a NULL expiry is not expired and the
stored text `2020-01-01T00:00` is expired. -/
theorem expiry_evaluation_witness :
    is_expired none exNow = .ok false ∧
    is_expired (some "2020-01-01T00:00") exNow = .ok true :=
  ⟨(expiry_evaluation exNow).1, by
    have h := (expiry_evaluation exNow).2 "2020-01-01T00:00"
      ⟨2020, 1, 1, 0, 0, 0, 0⟩ (by rfl)
    rw [h]
    rfl⟩

/-- C6: every generated code has length exactly 6, each of its characters
is drawn from the 62-character alphabet (26 lowercase + 26 uppercase +
10 digits, all alphanumeric and pairwise distinct), and the character
written at each position is the alphabet entry at the index
`random.choice` drew there — an injective map, so a uniformly drawn index
yields a uniformly drawn character. -/
theorem generate_short_code_alphanumeric (pick : Fin 6 → Fin 62) :
    (generate_short_code pick).length = 6 ∧
    (∀ c ∈ (generate_short_code pick).data, c ∈ characters.data ∧ c.isAlphanum = true) ∧
    characters.data.length = 62 ∧
    characters.data.Nodup ∧
    (characters.data.filter Char.isLower).length = 26 ∧
    (characters.data.filter Char.isUpper).length = 26 ∧
    (characters.data.filter Char.isDigit).length = 10 ∧
    (∀ i j : Fin 62,
      characters.data.get (i.cast characters_data_length.symm) =
        characters.data.get (j.cast characters_data_length.symm) → i = j) := by
  have hnodup : characters.data.Nodup := by decide
  refine ⟨?_, ?_, characters_data_length, hnodup, by decide, by decide, by decide, ?_⟩
  · show ((List.finRange 6).map _).length = 6
    simp
  · intro c hc
    have hm : c ∈ (List.finRange 6).map
        (fun i => characters.data.get ((pick i).cast characters_data_length.symm)) := hc
    rcases List.mem_map.mp hm with ⟨i, _, rfl⟩
    have hall : ∀ c ∈ characters.data, c.isAlphanum = true := by decide
    have hmem : characters.data.get ((pick i).cast characters_data_length.symm) ∈
        characters.data := List.get_mem _ _ _
    exact ⟨hmem, hall _ hmem⟩
  · intro i j hij
    have h2 := (List.Nodup.get_inj_iff hnodup).mp hij
    have h3 := congrArg Fin.val h2
    simp only [Fin.coe_cast] at h3
    exact Fin.ext h3

/-- C6 witness: the all-zeros draw gives the 6-character code "aaaaaa",
and its first character is alphanumeric. -/
theorem generate_short_code_alphanumeric_witness :
    (generate_short_code (fun _ => (0 : Fin 62))).length = 6 ∧
    Char.isAlphanum 'a' = true :=
  ⟨(generate_short_code_alphanumeric (fun _ => (0 : Fin 62))).1,
   ((generate_short_code_alphanumeric (fun _ => (0 : Fin 62))).2.1 'a' (by decide)).2⟩

/-- C7: `all_links` lists exactly the links of the store (one entry per
row, as a permutation), sorted by `created_at` descending, and pairs every
link with the number of click rows carrying its code — zero when no click
matches. -/
theorem all_links_sorted_counts (db : DB) :
    ((all_links db).map Prod.fst).Perm db.links ∧
    List.Sorted created_desc ((all_links db).map Prod.fst) ∧
    (∀ p ∈ all_links db, p.2 = click_count db.clicks p.1.short_code) ∧
    (∀ p ∈ all_links db,
      (∀ c ∈ db.clicks, c.short_code ≠ p.1.short_code) → p.2 = 0) := by
  have hmap : (all_links db).map Prod.fst =
      List.insertionSort created_desc db.links := by
    have hid : (Prod.fst ∘ fun l : Link => (l, click_count db.clicks l.short_code)) =
        id := rfl
    rw [all_links, List.map_map, hid, List.map_id]
  refine ⟨?_, ?_, ?_, ?_⟩
  · rw [hmap]
    exact List.perm_insertionSort created_desc db.links
  · rw [hmap]
    exact List.sorted_insertionSort created_desc db.links
  · intro p hp
    rcases List.mem_map.mp hp with ⟨l, _, rfl⟩
    rfl
  · intro p hp hnone
    rcases List.mem_map.mp hp with ⟨l, _, rfl⟩
    show click_count db.clicks l.short_code = 0
    rw [click_count, List.length_eq_zero, List.filter_eq_nil_iff]
    intro c hc
    simp [hnone c hc]

/-- C7 witness: over `exDB`, the listing is a permutation of the links
table and pairs the blank-expiry link (no clicks) with count 0. -/
theorem all_links_sorted_counts_witness :
    ((all_links exDB).map Prod.fst).Perm exDB.links ∧
    (exLinkBlank, (0 : Nat)).2 = click_count exDB.clicks (exLinkBlank, (0 : Nat)).1.short_code ∧
    (exLinkBlank, (0 : Nat)).2 = 0 :=
  ⟨(all_links_sorted_counts exDB).1,
   (all_links_sorted_counts exDB).2.2.1 (exLinkBlank, 0) (by decide),
   (all_links_sorted_counts exDB).2.2.2 (exLinkBlank, 0) (by decide) (by decide)⟩

/-- C8 counterexample: in the process's execution order, `init_db` does
NOT precede `scheduler.start()` — the module body starts the scheduler
at import time, before the `__main__` block initializes the store,
refuting the claim that the sweep task is started only after the store
has been initialized. -/
theorem sweep_start_order_counterexample :
    ¬ (main_startup_trace.indexOf StartupEvent.initDb <
       main_startup_trace.indexOf StartupEvent.schedulerStart) := by decide

/-- C8 (amended): the sweep task runs on a fixed one-hour interval for the
lifetime of the process and no sweep runs after the shutdown signal, but
the scheduler is started at module import time, before the store is
initialized. -/
theorem sweep_scheduler_lifecycle :
    (main_startup_trace.indexOf StartupEvent.schedulerStart <
       main_startup_trace.indexOf StartupEvent.initDb) ∧
    (∀ startT k, sweep_time startT (k + 1) - sweep_time startT k = sweep_interval) ∧
    (∀ startT shutdownT k, sweep_time startT k ≤ shutdownT →
      sweep_runs_at startT shutdownT (sweep_time startT k) = true) ∧
    (∀ startT shutdownT t, shutdownT < t →
      sweep_runs_at startT shutdownT t = false) := by
  refine ⟨by decide, ?_, ?_, ?_⟩
  · intro startT k
    simp only [sweep_time, sweep_interval]
    omega
  · intro startT shutdownT k h
    simp only [sweep_time, sweep_interval] at h
    rw [sweep_runs_at]
    rw [Bool.and_eq_true, Bool.and_eq_true]
    refine ⟨⟨decide_eq_true ?_, decide_eq_true ?_⟩, ?_⟩
    · simp only [sweep_time, sweep_interval]
      omega
    · simp only [sweep_time, sweep_interval]
      omega
    · simp only [sweep_time, sweep_interval]
      have hsub : startT + (k + 1) * 3600 - startT = (k + 1) * 3600 := by omega
      rw [hsub]
      simp [Nat.mul_mod_left]
  · intro startT shutdownT t h
    rw [sweep_runs_at]
    have hd : decide (t ≤ shutdownT) = false := decide_eq_false (by omega)
    rw [hd]
    simp

/-- C8 witness: with start at 0 and shutdown at 7200 s, the first sweep
(at 3600 s) runs, nothing runs at 10800 s, and consecutive sweep times
are one hour apart. -/
theorem sweep_scheduler_lifecycle_witness :
    sweep_runs_at 0 7200 (sweep_time 0 0) = true ∧
    sweep_runs_at 0 7200 10800 = false ∧
    sweep_time 0 1 - sweep_time 0 0 = sweep_interval :=
  ⟨sweep_scheduler_lifecycle.2.2.1 0 7200 0 (by decide),
   sweep_scheduler_lifecycle.2.2.2 0 7200 10800 (by decide),
   sweep_scheduler_lifecycle.2.1 0 0⟩
